import Mathlib

/-!
Verification of the wycc runtime conversion routines
(`src/modules/wycc/clib/wycc__toUnsignedByte.c` and
`src/modules/wycc/clib/wycc__toUnsignedInt.c`) against their
natural-language specification.

The two C translation units are embedded shallowly: boxed values become a
Lean structure, the heap of allocated objects becomes a list indexed by
allocation order, `wycc_obj*` handles become `Option Nat` (with `none`
playing the role of the C null pointer), and the fatal `exit(...)` paths
become an `Except` error whose constructor records the diagnostic and the
exit argument of the corresponding C branch.

The pieces declared in headers that are not part of the sources
(`wycc_lib.h`, `common.h`, `box.h`) — the type-tag enumeration,
`WY_OBJ_SANE`, `wycc_box_byte`, `wycc_box_long`, `wycc_register_routine`
and the registry, and the `wycc_initor` chain cell — are modelled from the
specification and marked as such in their doc comments.
-/

set_option autoImplicit false

namespace Wycc

/-- Modelled from the spec: the runtime type-tag enumeration declared in
`wycc_lib.h` (not in src).  The spec fixes a closed set of scalar kinds
including Integer (`Wy_Int`), Character (`Wy_Char`), Byte (`Wy_Byte`) and
Boolean (`Wy_Bool`); `Wy_Other n` stands for the remaining enumeration
constants (struct tags, list tags, …), distinguished by their numeric
code as in the C `enum`. -/
inductive WyTyp where
  | Wy_Int : WyTyp
  | Wy_Char : WyTyp
  | Wy_Byte : WyTyp
  | Wy_Bool : WyTyp
  | Wy_Other : Nat → WyTyp
deriving DecidableEq, Repr

/-- Modelled from the spec: the boxed-value record `wycc_obj` declared in
`wycc_lib.h` (not in src).  It carries a runtime type tag `typ` and a
scalar payload `ptr`; the C code reads the payload back with
`(long) itm->ptr`, so the payload is modelled as a mathematical integer
standing for that `long`. -/
structure wycc_obj where
  typ : WyTyp
  ptr : Int
deriving DecidableEq, Repr

/-- The heap of allocated boxed objects, indexed by allocation order. -/
abbrev Heap : Type := List wycc_obj

/-- A `wycc_obj*` handle: `none` is the C null pointer, `some a` points to
the object at allocation index `a`. -/
abbrev Handle : Type := Option Nat

/-- A fatal, process-terminating outcome of a runtime routine.  Each
constructor records the diagnostic text and, where the source shows it,
the argument passed to `exit`. -/
inductive WyFatal where
  /-- `WY_OBJ_SANE` failed: the handle was null or structurally invalid.
  The diagnostic cites the caller label passed to the macro. -/
  | insane : String → WyFatal
  /-- `WY_PANIC(msg, typ)` followed by `exit(exitArg)`: the unsupported-type
  branch. -/
  | panic : String → WyTyp → Int → WyFatal
  /-- `fprintf(stderr, msg)` followed by `exit(exitArg)`: the value-range
  precondition branch. -/
  | precondition : String → Int → WyFatal
deriving DecidableEq, Repr

/-- The exit status visible to a process supervisor.  For an `exit(n)` in
the source this is `n` reduced modulo 256 as POSIX does; for a sanity
failure it is modelled from the spec, which says `WY_OBJ_SANE` aborts the
process — the conventional wait status of an abort (128 + SIGABRT). -/
def processStatus : WyFatal → Nat
  | .insane _ => 134
  | .panic _ _ n => (n % 256).toNat
  | .precondition _ n => (n % 256).toNat

/-- Modelled from the spec: `WY_OBJ_SANE(itm, caller)` (defined in
`common.h`, not in src) is the first action of every runtime-exposed
operation; it validates that the handle is non-null and refers to a
well-formed allocated object, and fails fatally otherwise, citing
`caller` in the diagnostic.  On success the routine goes on to
dereference the handle, so the embedding returns the validated object. -/
def WY_OBJ_SANE (heap : Heap) (itm : Handle) (caller : String) :
    Except WyFatal wycc_obj :=
  match itm with
  | none => .error (.insane caller)
  | some a =>
    match heap[a]? with
    | none => .error (.insane caller)
    | some obj => .ok obj

/-- Modelled from the spec: `wycc_box_byte` (declared in `box.h`, not in
src) constructs a fresh Byte-tagged boxed value.  Per the spec's
ValueFactory contract the Byte constructor enforces `0 ≤ v ≤ 255` at
construction time, failing fatally with the precondition-violation status
otherwise; its only side effect is the allocation of the returned
handle, which is never null on success. -/
def wycc_box_byte (heap : Heap) (v : Int) : Except WyFatal (Heap × Handle) :=
  if 0 ≤ v ∧ v ≤ 255 then
    .ok (heap ++ [⟨.Wy_Byte, v⟩],
         some heap.length)
  else
    .error (.precondition "precondition not satisfied\n" (-4))

/-- Modelled from the spec: `wycc_box_long` (declared in `box.h`, not in
src) constructs a fresh Integer-tagged boxed value; no range restriction
is applied (the value passes as-is into the wider internal
representation).  Its only side effect is the allocation of the returned
handle, which is never null. -/
def wycc_box_long (heap : Heap) (v : Int) : Heap × Handle :=
  (heap ++ [⟨.Wy_Int, v⟩], some heap.length)

/-- `wycc__toUnsignedByte` from `wycc__toUnsignedByte.c`: sanity-check the
handle, dispatch on the tag (`Wy_Int`, `Wy_Char`, `Wy_Byte` accepted, any
other tag panics with `exit(-3)`), extract the payload as a `long`, check
`0 ≤ val ≤ 255` (violation exits with `-4`), and box the result as a
byte. -/
def wycc__toUnsignedByte (heap : Heap) (itm : Handle) :
    Except WyFatal (Heap × Handle) :=
  match WY_OBJ_SANE heap itm "wycc__toUnsignedByte" with
  | .error e => .error e
  | .ok obj =>
    match (if obj.typ = WyTyp.Wy_Int then Except.ok obj.ptr
           else if obj.typ = WyTyp.Wy_Char then Except.ok obj.ptr
           else if obj.typ = WyTyp.Wy_Byte then Except.ok obj.ptr
           else Except.error
             (WyFatal.panic "Help needed in wycc__toUnsignedByte for type %d\n"
               obj.typ (-3)) : Except WyFatal Int) with
    | .error e => .error e
    | .ok val =>
      if val < 0 then
        .error (.precondition "precondition not satisfied\n" (-4))
      else if val > 255 then
        .error (.precondition "precondition not satisfied\n" (-4))
      else
        wycc_box_byte heap val

/-- `wycc__toUnsignedInt` from `wycc__toUnsignedInt.c`: sanity-check the
handle, dispatch on the tag (`Wy_Int`, `Wy_Char`, `Wy_Byte` accepted, any
other tag panics with `exit(-3)`), extract the payload as a `long`, and
box it as an integer with no range check (the panic diagnostic text says
`wycc__toUnsignedByte`, as in the source). -/
def wycc__toUnsignedInt (heap : Heap) (itm : Handle) :
    Except WyFatal (Heap × Handle) :=
  match WY_OBJ_SANE heap itm "wycc__toUnsignedInt" with
  | .error e => .error e
  | .ok obj =>
    match (if obj.typ = WyTyp.Wy_Int then Except.ok obj.ptr
           else if obj.typ = WyTyp.Wy_Char then Except.ok obj.ptr
           else if obj.typ = WyTyp.Wy_Byte then Except.ok obj.ptr
           else Except.error
             (WyFatal.panic "Help needed in wycc__toUnsignedByte for type %d\n"
               obj.typ (-3)) : Except WyFatal Int) with
    | .error e => .error e
    | .ok val => .ok (wycc_box_long heap val)

/-- Modelled from the spec: the native domain of each accepted scalar
tag — Integer payloads range over the machine `long` (64-bit, two's
complement), Character payloads over the Unicode code points, Byte
payloads over `[0, 255]`. -/
def nativeDomain : WyTyp → Int → Prop
  | .Wy_Int, v => -(2 ^ 63) ≤ v ∧ v < 2 ^ 63
  | .Wy_Char, v => 0 ≤ v ∧ v < 1114112
  | .Wy_Byte, v => 0 ≤ v ∧ v ≤ 255
  | _, _ => False

/-- The accepted-tag whitelist shared by both conversion routines. -/
def acceptedTag (t : WyTyp) : Prop :=
  t = WyTyp.Wy_Int ∨ t = WyTyp.Wy_Char ∨ t = WyTyp.Wy_Byte

instance (t : WyTyp) : Decidable (acceptedTag t) := by
  unfold acceptedTag; infer_instance

/-- The type of native callables stored in the registry: every routine in
these translation units takes one boxed argument and returns a boxed
result (or terminates the process). -/
abbrev NativeFn : Type := Heap → Handle → Except WyFatal (Heap × Handle)

/-- The native-routine registry: entries keyed by (name, signature
descriptor).  Kept generic in the callable type so the algebraic
properties are provable once. -/
abbrev Registry (α : Type) : Type := List (String × String × α)

/-- Modelled from the spec: `wycc_register_routine(name, sig, fn)`
(declared in `wycc_lib.h`, not in src) inserts or overwrites the entry
keyed by (name, sig); it cannot fail.  Newest entries shadow older ones,
giving last-registration-wins. -/
def wycc_register_routine {α : Type} (reg : Registry α)
    (name sig : String) (fn : α) : Registry α :=
  (name, sig, fn) :: reg

/-- Modelled from the spec: registry lookup by (name, signature); the
descriptors are compared only for equality.  Returns the callable or
`none` ("not found"). -/
def wycc_lookup_routine {α : Type} (reg : Registry α)
    (name sig : String) : Option α :=
  match reg with
  | [] => none
  | (n, s, f) :: rest =>
    if n = name ∧ s = sig then some f else wycc_lookup_routine rest name sig

/-- Modelled from the spec: the per-module initializer record
`wycc_initor` (declared in `wycc_lib.h`, not in src): a link to the
previously linked record (`nxt`, an allocation index or null), a
register-callback (`functionr`) and a query-callback (`functionq`).
Generic in the callback type. -/
structure wycc_initor (α : Type) where
  nxt : Option Nat
  functionr : α
  functionq : α
deriving Repr

/-- The process-wide state of the initializer chain: the records in the
order the module constructors allocated them, and the head pointer
`wycc_init_chain` (an index into `records`, or null before any module is
loaded). -/
structure ChainState (α : Type) where
  records : List (wycc_initor α)
  wycc_init_chain : Option Nat
deriving Repr

/-- The chain state before any module constructor has run: no records,
null head. -/
def ChainState.empty (α : Type) : ChainState α := ⟨[], none⟩

/-- `__initor_a` as it appears in both translation units: the load-time
constructor sets the module's record's `nxt` to the current head of the
chain, fills in the two callbacks, and makes the record the new head. -/
def __initor_a {α : Type} (s : ChainState α) (fr fq : α) : ChainState α :=
  { records := s.records ++ [⟨s.wycc_init_chain, fr, fq⟩],
    wycc_init_chain := some s.records.length }

/-- Walking the chain from a given record pointer, collecting each
record's register-callback in visit order; `fuel` bounds the traversal so
the function is total on arbitrary states (on well-formed states the
fuel is never exhausted). -/
def walkFrom {α : Type} (records : List (wycc_initor α)) :
    Option Nat → Nat → List α
  | none, _ => []
  | some _, 0 => []
  | some i, Nat.succ fuel =>
    match records[i]? with
    | none => []
    | some r => r.functionr :: walkFrom records r.nxt fuel

/-- The register-callbacks of a chain state in the order the startup
driver invokes them: from the head (most recently linked) backwards. -/
def chainCallbacks {α : Type} (s : ChainState α) : List α :=
  walkFrom s.records s.wycc_init_chain s.records.length

/-- Well-formedness of a chain state, as established by the way
`__initor_a` builds it: every record's `nxt` points to a strictly earlier
allocation, and the head (when non-null) points into the record list. -/
def ChainState.wf {α : Type} (s : ChainState α) : Prop :=
  (∀ (i : Nat) (r : wycc_initor α), s.records[i]? = some r →
    ∀ j, r.nxt = some j → j < i) ∧
  (∀ h, s.wycc_init_chain = some h → h < s.records.length)

/-- `__initor_b` from `wycc__toUnsignedByte.c`: registers
`wycc__toUnsignedByte` under name `toUnsignedByte` and signature
descriptor `[^d,v,i]`. -/
def toUnsignedByte__initor_b (reg : Registry NativeFn) : Registry NativeFn :=
  wycc_register_routine reg "toUnsignedByte" "[^d,v,i]" wycc__toUnsignedByte

/-- `__initor_b` from `wycc__toUnsignedInt.c`: registers
`wycc__toUnsignedInt` under name `toUnsignedInt` and signature
descriptor `[^i,v,d]`. -/
def toUnsignedInt__initor_b (reg : Registry NativeFn) : Registry NativeFn :=
  wycc_register_routine reg "toUnsignedInt" "[^i,v,d]" wycc__toUnsignedInt

/-- The registry after the startup driver has run both modules'
register-callbacks on the empty registry (in either order; this one has
the byte module's constructor running first, so its callback runs
second). -/
def startupRegistry : Registry NativeFn :=
  toUnsignedByte__initor_b (toUnsignedInt__initor_b [])

/-! ### Evaluation lemmas -/

lemma WY_OBJ_SANE_ok {heap : Heap} {a : Nat} {obj : wycc_obj} (c : String)
    (h : heap[a]? = some obj) : WY_OBJ_SANE heap (some a) c = .ok obj := by
  simp [WY_OBJ_SANE, h]

lemma WY_OBJ_SANE_error {heap : Heap} {itm : Handle} {c : String} {e : WyFatal}
    (h : WY_OBJ_SANE heap itm c = .error e) : e = .insane c := by
  unfold WY_OBJ_SANE at h
  split at h
  · injection h with h1
    exact h1.symm
  · split at h
    · injection h with h1
      exact h1.symm
    · exact absurd h (by simp)

lemma toUnsignedByte_eq_of_accepted {heap : Heap} {a : Nat} {obj : wycc_obj}
    (h : heap[a]? = some obj) (ht : acceptedTag obj.typ) :
    wycc__toUnsignedByte heap (some a) =
      if 0 ≤ obj.ptr ∧ obj.ptr ≤ 255 then
        .ok (heap ++ [⟨.Wy_Byte, obj.ptr⟩], some heap.length)
      else
        .error (.precondition "precondition not satisfied\n" (-4)) := by
  unfold wycc__toUnsignedByte
  rw [WY_OBJ_SANE_ok _ h]
  rcases ht with h1 | h1 | h1 <;>
    simp only [h1] <;>
    simp [wycc_box_byte] <;>
    split_ifs <;> first | rfl | omega

lemma toUnsignedInt_eq_of_accepted {heap : Heap} {a : Nat} {obj : wycc_obj}
    (h : heap[a]? = some obj) (ht : acceptedTag obj.typ) :
    wycc__toUnsignedInt heap (some a) =
      .ok (heap ++ [⟨.Wy_Int, obj.ptr⟩], some heap.length) := by
  unfold wycc__toUnsignedInt
  rw [WY_OBJ_SANE_ok _ h]
  rcases ht with h1 | h1 | h1 <;> simp [h1, wycc_box_long]

lemma toUnsignedByte_eq_of_unsupported {heap : Heap} {a : Nat} {obj : wycc_obj}
    (h : heap[a]? = some obj) (ht : ¬ acceptedTag obj.typ) :
    wycc__toUnsignedByte heap (some a) =
      .error (.panic "Help needed in wycc__toUnsignedByte for type %d\n"
        obj.typ (-3)) := by
  have h1 : obj.typ ≠ WyTyp.Wy_Int := fun hc => ht (Or.inl hc)
  have h2 : obj.typ ≠ WyTyp.Wy_Char := fun hc => ht (Or.inr (Or.inl hc))
  have h3 : obj.typ ≠ WyTyp.Wy_Byte := fun hc => ht (Or.inr (Or.inr hc))
  unfold wycc__toUnsignedByte
  rw [WY_OBJ_SANE_ok _ h]
  simp [h1, h2, h3]

lemma toUnsignedInt_eq_of_unsupported {heap : Heap} {a : Nat} {obj : wycc_obj}
    (h : heap[a]? = some obj) (ht : ¬ acceptedTag obj.typ) :
    wycc__toUnsignedInt heap (some a) =
      .error (.panic "Help needed in wycc__toUnsignedByte for type %d\n"
        obj.typ (-3)) := by
  have h1 : obj.typ ≠ WyTyp.Wy_Int := fun hc => ht (Or.inl hc)
  have h2 : obj.typ ≠ WyTyp.Wy_Char := fun hc => ht (Or.inr (Or.inl hc))
  have h3 : obj.typ ≠ WyTyp.Wy_Byte := fun hc => ht (Or.inr (Or.inr hc))
  unfold wycc__toUnsignedInt
  rw [WY_OBJ_SANE_ok _ h]
  simp [h1, h2, h3]

lemma toUnsignedByte_none (heap : Heap) :
    wycc__toUnsignedByte heap none = .error (.insane "wycc__toUnsignedByte") :=
  rfl

lemma toUnsignedInt_none (heap : Heap) :
    wycc__toUnsignedInt heap none = .error (.insane "wycc__toUnsignedInt") :=
  rfl

lemma toUnsignedByte_dangling {heap : Heap} {a : Nat} (h : heap[a]? = none) :
    wycc__toUnsignedByte heap (some a) =
      .error (.insane "wycc__toUnsignedByte") := by
  unfold wycc__toUnsignedByte WY_OBJ_SANE
  simp [h]

lemma toUnsignedInt_dangling {heap : Heap} {a : Nat} (h : heap[a]? = none) :
    wycc__toUnsignedInt heap (some a) =
      .error (.insane "wycc__toUnsignedInt") := by
  unfold wycc__toUnsignedInt WY_OBJ_SANE
  simp [h]

lemma toUnsignedByte_ok_shape {heap : Heap} {itm : Handle} {heap2 : Heap}
    {r : Handle} (h : wycc__toUnsignedByte heap itm = .ok (heap2, r)) :
    ∃ (a : Nat) (obj : wycc_obj), itm = some a ∧ heap[a]? = some obj ∧
      acceptedTag obj.typ ∧ 0 ≤ obj.ptr ∧ obj.ptr ≤ 255 ∧
      heap2 = heap ++ [⟨.Wy_Byte, obj.ptr⟩] ∧ r = some heap.length := by
  rcases itm with _ | a
  · rw [toUnsignedByte_none] at h
    exact absurd h (by simp)
  rcases hh : heap[a]? with _ | obj
  · rw [toUnsignedByte_dangling hh] at h
    exact absurd h (by simp)
  by_cases ht : acceptedTag obj.typ
  · rw [toUnsignedByte_eq_of_accepted hh ht] at h
    split_ifs at h with hr
    injection h with h1
    rw [Prod.mk.injEq] at h1
    exact ⟨a, obj, rfl, hh, ht, hr.1, hr.2, h1.1.symm, h1.2.symm⟩
  · rw [toUnsignedByte_eq_of_unsupported hh ht] at h
    exact absurd h (by simp)

lemma toUnsignedInt_ok_shape {heap : Heap} {itm : Handle} {heap2 : Heap}
    {r : Handle} (h : wycc__toUnsignedInt heap itm = .ok (heap2, r)) :
    ∃ (a : Nat) (obj : wycc_obj), itm = some a ∧ heap[a]? = some obj ∧
      acceptedTag obj.typ ∧
      heap2 = heap ++ [⟨.Wy_Int, obj.ptr⟩] ∧ r = some heap.length := by
  rcases itm with _ | a
  · rw [toUnsignedInt_none] at h
    exact absurd h (by simp)
  rcases hh : heap[a]? with _ | obj
  · rw [toUnsignedInt_dangling hh] at h
    exact absurd h (by simp)
  by_cases ht : acceptedTag obj.typ
  · rw [toUnsignedInt_eq_of_accepted hh ht] at h
    injection h with h1
    rw [Prod.mk.injEq] at h1
    exact ⟨a, obj, rfl, hh, ht, h1.1.symm, h1.2.symm⟩
  · rw [toUnsignedInt_eq_of_unsupported hh ht] at h
    exact absurd h (by simp)

lemma toUnsignedByte_error_shape {heap : Heap} {itm : Handle} {e : WyFatal}
    (h : wycc__toUnsignedByte heap itm = .error e) :
    e = .insane "wycc__toUnsignedByte" ∨
    (∃ t, e = .panic "Help needed in wycc__toUnsignedByte for type %d\n"
      t (-3)) ∨
    e = .precondition "precondition not satisfied\n" (-4) := by
  rcases itm with _ | a
  · rw [toUnsignedByte_none] at h
    injection h with h1
    exact Or.inl h1.symm
  rcases hh : heap[a]? with _ | obj
  · rw [toUnsignedByte_dangling hh] at h
    injection h with h1
    exact Or.inl h1.symm
  by_cases ht : acceptedTag obj.typ
  · rw [toUnsignedByte_eq_of_accepted hh ht] at h
    split_ifs at h
    injection h with h1
    exact Or.inr (Or.inr h1.symm)
  · rw [toUnsignedByte_eq_of_unsupported hh ht] at h
    injection h with h1
    exact Or.inr (Or.inl ⟨obj.typ, h1.symm⟩)

lemma toUnsignedInt_error_shape {heap : Heap} {itm : Handle} {e : WyFatal}
    (h : wycc__toUnsignedInt heap itm = .error e) :
    e = .insane "wycc__toUnsignedInt" ∨
    (∃ t, e = .panic "Help needed in wycc__toUnsignedByte for type %d\n"
      t (-3)) := by
  rcases itm with _ | a
  · rw [toUnsignedInt_none] at h
    injection h with h1
    exact Or.inl h1.symm
  rcases hh : heap[a]? with _ | obj
  · rw [toUnsignedInt_dangling hh] at h
    injection h with h1
    exact Or.inl h1.symm
  by_cases ht : acceptedTag obj.typ
  · rw [toUnsignedInt_eq_of_accepted hh ht] at h
    exact absurd h (by simp)
  · rw [toUnsignedInt_eq_of_unsupported hh ht] at h
    injection h with h1
    exact Or.inr ⟨obj.typ, h1.symm⟩

/-! ### Initializer-chain lemmas -/

lemma walkFrom_append {α : Type} (records : List (wycc_initor α))
    (x : wycc_initor α)
    (hwf : ∀ (i : Nat) (r : wycc_initor α), records[i]? = some r →
      ∀ j, r.nxt = some j → j < i) :
    ∀ (fuel : Nat) (head : Option Nat),
      (∀ h, head = some h → h < records.length) →
      walkFrom (records ++ [x]) head fuel = walkFrom records head fuel := by
  intro fuel
  induction fuel with
  | zero =>
    intro head _
    cases head <;> rfl
  | succ n ih =>
    intro head hh
    cases head with
    | none => rfl
    | some i =>
      have hi : i < records.length := hh i rfl
      have hx : (records ++ [x])[i]? = records[i]? :=
        List.getElem?_append_left hi
      simp only [walkFrom, hx]
      cases hr : records[i]? with
      | none => rfl
      | some r =>
        have hb : ∀ h, r.nxt = some h → h < records.length := by
          intro j hj
          exact lt_trans (hwf i r hr j hj) hi
        show r.functionr :: walkFrom (records ++ [x]) r.nxt n =
          r.functionr :: walkFrom records r.nxt n
        rw [ih r.nxt hb]

lemma chainCallbacks_link {α : Type} (s : ChainState α) (fr fq : α)
    (hwf : s.wf) :
    chainCallbacks (__initor_a s fr fq) = fr :: chainCallbacks s := by
  unfold chainCallbacks __initor_a
  simp only [List.length_append, List.length_cons, List.length_nil]
  simp only [walkFrom, List.getElem?_concat_length]
  rw [walkFrom_append s.records _ hwf.1 s.records.length s.wycc_init_chain
    hwf.2]

lemma wf_link {α : Type} (s : ChainState α) (fr fq : α) (hwf : s.wf) :
    (__initor_a s fr fq).wf := by
  constructor
  · intro i r hr j hj
    simp only [__initor_a] at hr
    by_cases hi : i < s.records.length
    · rw [List.getElem?_append_left hi] at hr
      exact hwf.1 i r hr j hj
    · have hlt : i < s.records.length + 1 := by
        have h1 := (List.getElem?_eq_some.mp hr).1
        simpa using h1
      have hiL : i = s.records.length := by omega
      subst hiL
      rw [List.getElem?_concat_length] at hr
      injection hr with hr1
      rw [← hr1] at hj
      exact hwf.2 j hj
  · intro h hh
    simp only [__initor_a] at hh
    injection hh with hh1
    simp [__initor_a, ← hh1]

lemma wf_empty (α : Type) : (ChainState.empty α).wf := by
  constructor
  · intro i r hr
    simp [ChainState.empty] at hr
  · intro h hh
    simp [ChainState.empty] at hh

/-! ### Registry lemmas -/

lemma lookup_register_same {α : Type} (reg : Registry α) (n s : String)
    (fn : α) :
    wycc_lookup_routine (wycc_register_routine reg n s fn) n s = some fn := by
  unfold wycc_register_routine wycc_lookup_routine
  simp

lemma lookup_eq_none {α : Type} (reg : Registry α) (n s : String)
    (h : ∀ e ∈ reg, ¬(e.1 = n ∧ e.2.1 = s)) :
    wycc_lookup_routine reg n s = none := by
  induction reg with
  | nil => rfl
  | cons e rest ih =>
    obtain ⟨en, es, ef⟩ := e
    unfold wycc_lookup_routine
    rw [if_neg (h (en, es, ef) (List.mem_cons_self _ _))]
    exact ih fun e' he' => h e' (List.mem_cons_of_mem _ he')

/-! ### Claim theorems -/

/-- **C1.** For every input tag in the accepted set {`Wy_Int`, `Wy_Char`,
`Wy_Byte`} and every value `v` in that tag's native domain,
`wycc__toUnsignedByte` applied to a boxed value with that tag and payload
`v` returns a Byte-tagged boxed value whose payload equals `v` iff
`0 ≤ v ≤ 255`; for `v` outside `[0, 255]` it terminates the process with
the precondition-violation status (`exit(-4)`) instead of returning. -/
theorem toUnsignedByte_range_spec (heap : Heap) (a : Nat) (obj : wycc_obj)
    (v : Int) (hobj : heap[a]? = some obj) (hv : obj.ptr = v)
    (ht : acceptedTag obj.typ) (hdom : nativeDomain obj.typ v) :
    ((∃ (heap2 : Heap) (addr : Nat),
        wycc__toUnsignedByte heap (some a) = .ok (heap2, some addr) ∧
        heap2[addr]? = some ⟨WyTyp.Wy_Byte, v⟩) ↔ (0 ≤ v ∧ v ≤ 255)) ∧
    (¬(0 ≤ v ∧ v ≤ 255) →
      wycc__toUnsignedByte heap (some a) =
        .error (.precondition "precondition not satisfied\n" (-4))) := by
  subst hv
  refine ⟨⟨?_, ?_⟩, ?_⟩
  · rintro ⟨heap2, addr, hok, -⟩
    obtain ⟨a', obj', ha', hobj', -, h0, h255, -, -⟩ :=
      toUnsignedByte_ok_shape hok
    injection ha' with ha1
    subst ha1
    rw [hobj] at hobj'
    injection hobj' with ho1
    rw [ho1]
    exact ⟨h0, h255⟩
  · intro hr
    rw [toUnsignedByte_eq_of_accepted hobj ht, if_pos hr]
    exact ⟨heap ++ [⟨WyTyp.Wy_Byte, obj.ptr⟩], heap.length, rfl,
      List.getElem?_concat_length _ _⟩
  · intro hr
    rw [toUnsignedByte_eq_of_accepted hobj ht, if_neg hr]

/-- Witness for C1: converting a boxed Integer 42 yields Byte 42; converting
a boxed Integer 300 terminates with the precondition-violation status. -/
theorem toUnsignedByte_range_spec_witness :
    (∃ (heap2 : Heap) (addr : Nat),
        wycc__toUnsignedByte [⟨WyTyp.Wy_Int, 42⟩] (some 0) =
          .ok (heap2, some addr) ∧
        heap2[addr]? = some ⟨WyTyp.Wy_Byte, 42⟩) ∧
    wycc__toUnsignedByte [⟨WyTyp.Wy_Int, 300⟩] (some 0) =
      .error (.precondition "precondition not satisfied\n" (-4)) :=
  ⟨((toUnsignedByte_range_spec [⟨WyTyp.Wy_Int, 42⟩] 0 ⟨WyTyp.Wy_Int, 42⟩ 42
      rfl rfl (Or.inl rfl) (by constructor <;> norm_num [nativeDomain])).1).mpr
      (by norm_num),
   (toUnsignedByte_range_spec [⟨WyTyp.Wy_Int, 300⟩] 0 ⟨WyTyp.Wy_Int, 300⟩ 300
      rfl rfl (Or.inl rfl) (by constructor <;> norm_num [nativeDomain])).2
      (by norm_num)⟩

/-- **C2.** For every input tag in the accepted set and every value `v` in
that tag's native domain, `wycc__toUnsignedInt` always succeeds (never
terminates the process) and returns an Integer-tagged boxed value
numerically equal to `v`, with no range restriction (negative `v` passes
through unchanged, as the witness at `v = -5` shows). -/
theorem toUnsignedInt_total_spec (heap : Heap) (a : Nat) (obj : wycc_obj)
    (v : Int) (hobj : heap[a]? = some obj) (hv : obj.ptr = v)
    (ht : acceptedTag obj.typ) (hdom : nativeDomain obj.typ v) :
    wycc__toUnsignedInt heap (some a) =
      .ok (heap ++ [⟨WyTyp.Wy_Int, v⟩], some heap.length) ∧
    (heap ++ [⟨WyTyp.Wy_Int, v⟩])[heap.length]? =
      some ⟨WyTyp.Wy_Int, v⟩ := by
  subst hv
  exact ⟨toUnsignedInt_eq_of_accepted hobj ht,
    List.getElem?_concat_length _ _⟩

/-- Witness for C2: a boxed Integer −5 passes through unchanged (no range
restriction, in contrast with the byte conversion). -/
theorem toUnsignedInt_total_spec_witness :
    wycc__toUnsignedInt [⟨WyTyp.Wy_Int, -5⟩] (some 0) =
      .ok ([⟨WyTyp.Wy_Int, -5⟩, ⟨WyTyp.Wy_Int, -5⟩], some 1) :=
  (toUnsignedInt_total_spec [⟨WyTyp.Wy_Int, -5⟩] 0 ⟨WyTyp.Wy_Int, -5⟩ (-5)
    rfl rfl (Or.inl rfl) (by constructor <;> norm_num [nativeDomain])).1

/-- **C3.** For every boxed value whose tag lies outside the accepted set
{`Wy_Int`, `Wy_Char`, `Wy_Byte`}, both `wycc__toUnsignedByte` and
`wycc__toUnsignedInt` terminate the process with the unsupported-type
status (`exit(-3)` after the `WY_PANIC` diagnostic) and never return a
value. -/
theorem conversions_unsupported_spec (heap : Heap) (a : Nat)
    (obj : wycc_obj) (hobj : heap[a]? = some obj)
    (ht : ¬ acceptedTag obj.typ) :
    wycc__toUnsignedByte heap (some a) =
      .error (.panic "Help needed in wycc__toUnsignedByte for type %d\n"
        obj.typ (-3)) ∧
    wycc__toUnsignedInt heap (some a) =
      .error (.panic "Help needed in wycc__toUnsignedByte for type %d\n"
        obj.typ (-3)) ∧
    (∀ p, wycc__toUnsignedByte heap (some a) ≠ .ok p) ∧
    (∀ p, wycc__toUnsignedInt heap (some a) ≠ .ok p) := by
  refine ⟨toUnsignedByte_eq_of_unsupported hobj ht,
    toUnsignedInt_eq_of_unsupported hobj ht, ?_, ?_⟩
  · intro p
    rw [toUnsignedByte_eq_of_unsupported hobj ht]
    simp
  · intro p
    rw [toUnsignedInt_eq_of_unsupported hobj ht]
    simp

/-- Witness for C3: a Boolean-tagged boxed value makes both conversions
terminate with the unsupported-type status. -/
theorem conversions_unsupported_spec_witness :
    wycc__toUnsignedByte [⟨WyTyp.Wy_Bool, 1⟩] (some 0) =
      .error (.panic "Help needed in wycc__toUnsignedByte for type %d\n"
        WyTyp.Wy_Bool (-3)) ∧
    wycc__toUnsignedInt [⟨WyTyp.Wy_Bool, 1⟩] (some 0) =
      .error (.panic "Help needed in wycc__toUnsignedByte for type %d\n"
        WyTyp.Wy_Bool (-3)) :=
  ⟨(conversions_unsupported_spec [⟨WyTyp.Wy_Bool, 1⟩] 0 ⟨WyTyp.Wy_Bool, 1⟩
      rfl (by decide)).1,
   (conversions_unsupported_spec [⟨WyTyp.Wy_Bool, 1⟩] 0 ⟨WyTyp.Wy_Bool, 1⟩
      rfl (by decide)).2.1⟩

/-- **C4.** Both runtime-exposed conversions run the sanity check on their
boxed argument first: on a null handle or a handle that refers to no
allocated object they fail fatally with the sanity diagnostic citing the
operation's own name, regardless of anything else in the heap; and
whenever `WY_OBJ_SANE` fails, the routine's outcome is exactly that
failure (no tag inspection or payload extraction happens). -/
theorem conversions_sanity_first_spec :
    (∀ heap : Heap, wycc__toUnsignedByte heap none =
      .error (.insane "wycc__toUnsignedByte")) ∧
    (∀ heap : Heap, wycc__toUnsignedInt heap none =
      .error (.insane "wycc__toUnsignedInt")) ∧
    (∀ (heap : Heap) (a : Nat), heap[a]? = none →
      wycc__toUnsignedByte heap (some a) =
        .error (.insane "wycc__toUnsignedByte")) ∧
    (∀ (heap : Heap) (a : Nat), heap[a]? = none →
      wycc__toUnsignedInt heap (some a) =
        .error (.insane "wycc__toUnsignedInt")) ∧
    (∀ (heap : Heap) (itm : Handle) (e : WyFatal),
      WY_OBJ_SANE heap itm "wycc__toUnsignedByte" = .error e →
      wycc__toUnsignedByte heap itm = .error e) ∧
    (∀ (heap : Heap) (itm : Handle) (e : WyFatal),
      WY_OBJ_SANE heap itm "wycc__toUnsignedInt" = .error e →
      wycc__toUnsignedInt heap itm = .error e) := by
  refine ⟨toUnsignedByte_none, toUnsignedInt_none,
    fun _ _ h => toUnsignedByte_dangling h,
    fun _ _ h => toUnsignedInt_dangling h, ?_, ?_⟩
  · intro heap itm e h
    unfold wycc__toUnsignedByte
    rw [h]
  · intro heap itm e h
    unfold wycc__toUnsignedInt
    rw [h]

/-- Witness for C4: the null handle and a dangling handle both produce the
sanity failure citing the routine's name. -/
theorem conversions_sanity_first_spec_witness :
    wycc__toUnsignedByte [] none = .error (.insane "wycc__toUnsignedByte") ∧
    wycc__toUnsignedInt [⟨WyTyp.Wy_Int, 0⟩] (some 5) =
      .error (.insane "wycc__toUnsignedInt") :=
  ⟨conversions_sanity_first_spec.1 [],
   conversions_sanity_first_spec.2.2.2.1 [⟨WyTyp.Wy_Int, 0⟩] 5 rfl⟩

/-- **C5.** Every fatal termination of a conversion routine has a non-zero
process exit status, and the status of the unsupported-type branch
(`exit(-3)`, i.e. 253) differs from the status of the value-range
precondition branch (`exit(-4)`, i.e. 252), so a process supervisor can
tell the two failure kinds apart. -/
theorem conversion_exit_status_spec :
    (∀ (heap : Heap) (itm : Handle) (e : WyFatal),
      wycc__toUnsignedByte heap itm = .error e → processStatus e ≠ 0) ∧
    (∀ (heap : Heap) (itm : Handle) (e : WyFatal),
      wycc__toUnsignedInt heap itm = .error e → processStatus e ≠ 0) ∧
    (∀ (heap : Heap) (itm : Handle) (m : String) (t : WyTyp) (n : Int),
      wycc__toUnsignedByte heap itm = .error (.panic m t n) →
      processStatus (.panic m t n) = 253) ∧
    (∀ (heap : Heap) (itm : Handle) (m : String) (n : Int),
      wycc__toUnsignedByte heap itm = .error (.precondition m n) →
      processStatus (.precondition m n) = 252) ∧
    (∀ (heap : Heap) (itm : Handle) (m : String) (t : WyTyp) (n : Int),
      wycc__toUnsignedInt heap itm = .error (.panic m t n) →
      processStatus (.panic m t n) = 253) ∧
    (253 : Nat) ≠ 252 := by
  refine ⟨?_, ?_, ?_, ?_, ?_, by decide⟩
  · intro heap itm e h
    rcases toUnsignedByte_error_shape h with h1 | ⟨t, h1⟩ | h1 <;>
      subst h1 <;> simp [processStatus]
  · intro heap itm e h
    rcases toUnsignedInt_error_shape h with h1 | ⟨t, h1⟩ <;>
      subst h1 <;> simp [processStatus]
  · intro heap itm m t n h
    rcases toUnsignedByte_error_shape h with h1 | ⟨t', h1⟩ | h1
    · exact absurd h1 (by simp)
    · injection h1 with _ _ h3
      subst h3
      rfl
    · exact absurd h1 (by simp)
  · intro heap itm m n h
    rcases toUnsignedByte_error_shape h with h1 | ⟨t', h1⟩ | h1
    · exact absurd h1 (by simp)
    · exact absurd h1 (by simp)
    · injection h1 with _ h2
      subst h2
      rfl
  · intro heap itm m t n h
    rcases toUnsignedInt_error_shape h with h1 | ⟨t', h1⟩
    · exact absurd h1 (by simp)
    · injection h1 with _ _ h3
      subst h3
      rfl

/-- Witness for C5: the unsupported-type termination has status 253 and
the range-violation termination has status 252. -/
theorem conversion_exit_status_spec_witness :
    processStatus (.panic "Help needed in wycc__toUnsignedByte for type %d\n"
      WyTyp.Wy_Bool (-3)) = 253 ∧
    processStatus (.precondition "precondition not satisfied\n" (-4)) = 252 :=
  ⟨conversion_exit_status_spec.2.2.1 [⟨WyTyp.Wy_Bool, 1⟩] (some 0) _ _ _ rfl,
   conversion_exit_status_spec.2.2.2.1 [⟨WyTyp.Wy_Int, 300⟩] (some 0) _ _
     rfl⟩

/-- **C6.** Each module's load-time constructor links its initializer
record exactly once, setting the record's `nxt` to the current chain head
and making the record the new head: on any well-formed chain state the
link preserves well-formedness, prepends the new register-callback to the
traversal (so no previously linked record is lost); and for records
linked in the order R1, R2, R3 the walk from the head invokes R3's
register-callback before R2's before R1's, with the `nxt` pointers
forming the reverse-chronological list. -/
theorem initor_chain_spec :
    (∀ (α : Type) (s : ChainState α) (fr fq : α), s.wf →
      (__initor_a s fr fq).wf ∧
      chainCallbacks (__initor_a s fr fq) = fr :: chainCallbacks s) ∧
    (∀ (α : Type) (f1 f2 f3 q1 q2 q3 : α),
      chainCallbacks (__initor_a (__initor_a (__initor_a
        (ChainState.empty α) f1 q1) f2 q2) f3 q3) = [f3, f2, f1] ∧
      (__initor_a (__initor_a (__initor_a (ChainState.empty α) f1 q1)
        f2 q2) f3 q3).wycc_init_chain = some 2 ∧
      ((__initor_a (__initor_a (__initor_a (ChainState.empty α) f1 q1)
        f2 q2) f3 q3).records.map wycc_initor.nxt) =
        [none, some 0, some 1]) := by
  refine ⟨fun α s fr fq hwf => ⟨wf_link s fr fq hwf,
    chainCallbacks_link s fr fq hwf⟩, ?_⟩
  intro α f1 f2 f3 q1 q2 q3
  exact ⟨rfl, rfl, rfl⟩

/-- Witness for C6: linking one record onto the empty chain prepends its
register-callback to the (empty) traversal. -/
theorem initor_chain_spec_witness :
    (__initor_a (ChainState.empty Nat) 7 8).wf ∧
    chainCallbacks (__initor_a (ChainState.empty Nat) 7 8) =
      7 :: chainCallbacks (ChainState.empty Nat) :=
  initor_chain_spec.1 Nat (ChainState.empty Nat) 7 8 (wf_empty Nat)

/-- **C7.** Registering a routine and then looking it up under the same
(name, signature) key returns that routine; looking up a never-registered
(name, signature) pair returns "not found"; and after the two modules'
register-callbacks run, `toUnsignedByte`/`[^d,v,i]` resolves to
`wycc__toUnsignedByte` and `toUnsignedInt`/`[^i,v,d]` resolves to
`wycc__toUnsignedInt`. -/
theorem registry_spec :
    (∀ (α : Type) (reg : Registry α) (n s : String) (fn : α),
      wycc_lookup_routine (wycc_register_routine reg n s fn) n s =
        some fn) ∧
    (∀ (α : Type) (reg : Registry α) (n s : String),
      (∀ e ∈ reg, ¬(e.1 = n ∧ e.2.1 = s)) →
      wycc_lookup_routine reg n s = none) ∧
    wycc_lookup_routine startupRegistry "toUnsignedByte" "[^d,v,i]" =
      some wycc__toUnsignedByte ∧
    wycc_lookup_routine startupRegistry "toUnsignedInt" "[^i,v,d]" =
      some wycc__toUnsignedInt := by
  refine ⟨fun α reg n s fn => lookup_register_same reg n s fn,
    fun α reg n s h => lookup_eq_none reg n s h, ?_, ?_⟩
  · rfl
  · rfl

/-- Witness for C7: register-then-lookup returns the registered callable,
and lookup of an unregistered key returns "not found". -/
theorem registry_spec_witness :
    wycc_lookup_routine
      (wycc_register_routine ([] : Registry Nat) "f" "[s]" 3) "f" "[s]" =
      some 3 ∧
    wycc_lookup_routine ([("g", "[t]", 5)] : Registry Nat) "f" "[s]" =
      none :=
  ⟨registry_spec.1 Nat [] "f" "[s]" 3,
   registry_spec.2.1 Nat [("g", "[t]", 5)] "f" "[s]" (by decide)⟩

/-- **C8.** On every successful call, each conversion routine leaves every
previously allocated boxed value — in particular its argument — unchanged,
has no effect on the heap beyond appending the single freshly allocated
result object, and never returns a null handle on success. -/
theorem conversions_frame_spec :
    (∀ (heap : Heap) (itm : Handle) (heap2 : Heap) (r : Handle),
      wycc__toUnsignedByte heap itm = .ok (heap2, r) →
      (∃ obj, heap2 = heap ++ [obj]) ∧
      (∀ i : Nat, i < heap.length → heap2[i]? = heap[i]?) ∧
      (∀ a : Nat, itm = some a → heap2[a]? = heap[a]?) ∧
      r ≠ none) ∧
    (∀ (heap : Heap) (itm : Handle) (heap2 : Heap) (r : Handle),
      wycc__toUnsignedInt heap itm = .ok (heap2, r) →
      (∃ obj, heap2 = heap ++ [obj]) ∧
      (∀ i : Nat, i < heap.length → heap2[i]? = heap[i]?) ∧
      (∀ a : Nat, itm = some a → heap2[a]? = heap[a]?) ∧
      r ≠ none) := by
  constructor
  · intro heap itm heap2 r h
    obtain ⟨a, obj, hitm, hobj, -, -, -, hh2, hr⟩ := toUnsignedByte_ok_shape h
    subst hh2
    subst hr
    refine ⟨⟨_, rfl⟩, fun i hi => List.getElem?_append_left hi, ?_, by simp⟩
    intro a' ha'
    rw [hitm] at ha'
    injection ha' with ha1
    subst ha1
    exact List.getElem?_append_left (List.getElem?_eq_some.mp hobj).1
  · intro heap itm heap2 r h
    obtain ⟨a, obj, hitm, hobj, -, hh2, hr⟩ := toUnsignedInt_ok_shape h
    subst hh2
    subst hr
    refine ⟨⟨_, rfl⟩, fun i hi => List.getElem?_append_left hi, ?_, by simp⟩
    intro a' ha'
    rw [hitm] at ha'
    injection ha' with ha1
    subst ha1
    exact List.getElem?_append_left (List.getElem?_eq_some.mp hobj).1

/-- Witness for C8: after a successful byte conversion the argument object
is unchanged and the returned handle is non-null. -/
theorem conversions_frame_spec_witness :
    (([⟨WyTyp.Wy_Int, 42⟩, ⟨WyTyp.Wy_Byte, 42⟩] : Heap)[0]? =
      ([⟨WyTyp.Wy_Int, 42⟩] : Heap)[0]?) ∧
    (some 1 : Handle) ≠ none :=
  ⟨(conversions_frame_spec.1 [⟨WyTyp.Wy_Int, 42⟩] (some 0)
      [⟨WyTyp.Wy_Int, 42⟩, ⟨WyTyp.Wy_Byte, 42⟩] (some 1) rfl).2.2.1 0 rfl,
   (conversions_frame_spec.1 [⟨WyTyp.Wy_Int, 42⟩] (some 0)
      [⟨WyTyp.Wy_Int, 42⟩, ⟨WyTyp.Wy_Byte, 42⟩] (some 1) rfl).2.2.2⟩

end Wycc
